import Mathlib

/-!
Shallow embedding of the zirakbook-accounting-backend authentication and
authorization core: the JWT token utilities (src/utils/tokens.js, inlined in
src/app.js), the password hasher (src/utils/hash.js), the ApiError taxonomy
(src/utils/ApiError.js), the auth/permission services
(src/services/permission.service.js) and the permission-checking middleware
(src/middleware/errorHandler.js).  Stateful code is modelled by explicit
state passing over a `St` record holding the Prisma store and the Redis
cache; fallible operations return `Except ApiError`.
-/

namespace ZirakBook

/-! ## Enumerations (USER_ROLES / USER_STATUS from config/constants.js) -/

/-- User roles.  The role names are those used throughout the source
(SUPERADMIN in the service guards; ADMIN/ACCOUNTANT/VIEWER in the tests and
validation schemas); `config/constants.js` itself is not among the provided
sources. -/
inductive UserRole
  | SUPERADMIN
  | ADMIN
  | ACCOUNTANT
  | VIEWER
deriving DecidableEq, Repr

/-- User statuses (USER_STATUS.ACTIVE / INACTIVE / SUSPENDED). -/
inductive UserStatus
  | ACTIVE
  | INACTIVE
  | SUSPENDED
deriving DecidableEq, Repr

/-! ## ApiError (src/utils/ApiError.js) -/

/-- An ApiError value: HTTP status code, human message, machine error code.
The `ERROR_CODES` string values come from `config/constants.js`, which is
not among the provided sources; we use the constant names themselves as the
string values.  The claims only depend on identity and distinctness of
these values, never on their spelling. -/
structure ApiError where
  statusCode : Nat
  message : String
  errorCode : String
deriving DecidableEq, Repr

def ApiError.badRequest (msg : String) : ApiError :=
  ⟨400, msg, "VALIDATION_ERROR"⟩

def ApiError.unauthorized (msg : String) : ApiError :=
  ⟨401, msg, "AUTH_TOKEN_INVALID"⟩

def ApiError.forbidden (msg : String) : ApiError :=
  ⟨403, msg, "AUTH_INSUFFICIENT_PERMISSIONS"⟩

def ApiError.notFound (msg : String) (code : String) : ApiError :=
  ⟨404, msg, code⟩

def ApiError.conflict (msg : String) (code : String) : ApiError :=
  ⟨409, msg, code⟩

def ApiError.internal (msg : String) : ApiError :=
  ⟨500, msg, "INTERNAL_ERROR"⟩

def ApiError.invalidCredentials : ApiError :=
  ⟨401, "Invalid email or password", "AUTH_INVALID_CREDENTIALS"⟩

def ApiError.tokenExpired : ApiError :=
  ⟨401, "Token has expired", "AUTH_TOKEN_EXPIRED"⟩

def ApiError.invalidToken : ApiError :=
  ⟨401, "Invalid or malformed token", "AUTH_TOKEN_INVALID"⟩

def ApiError.accountSuspended : ApiError :=
  ⟨403, "Account has been suspended", "AUTH_ACCOUNT_SUSPENDED"⟩

/-! ## Token codec (src/utils/tokens.js) -/

/-- Payload of an access token: `{id, email, role, companyId, status}`
(built in `generateTokens`). -/
structure AccessPayload where
  id : String
  email : String
  role : UserRole
  companyId : String
  status : UserStatus
deriving DecidableEq, Repr

/-- Payload of a refresh token: `{id, email}` (built in `generateTokens`). -/
structure RefreshPayload where
  id : String
  email : String
deriving DecidableEq, Repr

/-- A JWT payload is a plain object; the two shapes produced by the code
are the access shape and the reduced refresh shape.  `jwt.verify` never
inspects the shape, and neither does the model. -/
inductive TokenPayload
  | access (p : AccessPayload)
  | refresh (p : RefreshPayload)
deriving DecidableEq, Repr

/-- The `id` field of the payload (`decoded.id` in the source); both
payload shapes carry it. -/
def TokenPayload.subjectId : TokenPayload → String
  | .access p => p.id
  | .refresh p => p.id

/-- A well-formed signed JWT.  `key` records the HMAC secret the token was
signed with; verification against a key succeeds exactly when the keys
coincide, which models signature checking for a symmetric scheme.  Two
tokens are equal iff all claims, the timestamps and the signing key
coincide, which models equality of the compact serialized strings. -/
structure Token where
  payload : TokenPayload
  iat : Nat
  exp : Nat
  iss : String
  aud : String
  key : String
deriving DecidableEq, Repr

/-- A presented bearer credential: either a string that does not parse as a
JWT at all (`jwt malformed`), or a structurally valid token. -/
inductive Presented
  | malformed (raw : String)
  | token (t : Token)
deriving DecidableEq, Repr

/-- JWT_CONFIG from `config/constants.js` (not among the provided sources):
issuer, audience and the two expiry profiles, all abstract here. -/
structure JwtConfig where
  ISSUER : String
  AUDIENCE : String
  ACCESS_TOKEN_EXPIRY : Nat
  REFRESH_TOKEN_EXPIRY : Nat
deriving DecidableEq, Repr

/-- The process environment relevant to the codec:
`JWT_SECRET` (required, the module throws at load time without it) and the
optional `JWT_REFRESH_SECRET`. -/
structure JwtEnv where
  JWT_SECRET : String
  JWT_REFRESH_SECRET : Option String
deriving DecidableEq, Repr

/-- `const JWT_REFRESH_SECRET = process.env.JWT_REFRESH_SECRET || process.env.JWT_SECRET`. -/
def JwtEnv.refreshSecret (e : JwtEnv) : String :=
  e.JWT_REFRESH_SECRET.getD e.JWT_SECRET

/-- `jwt.sign(payload, key, {expiresIn, issuer, audience})` at clock `now`. -/
def jwtSign (key : String) (cfg : JwtConfig) (payload : TokenPayload)
    (ttl : Nat) (now : Nat) : Token :=
  { payload := payload, iat := now, exp := now + ttl,
    iss := cfg.ISSUER, aud := cfg.AUDIENCE, key := key }

/-- `generateAccessToken` signs with JWT_SECRET and the access expiry. -/
def generateAccessToken (env : JwtEnv) (cfg : JwtConfig)
    (payload : AccessPayload) (now : Nat) : Token :=
  jwtSign env.JWT_SECRET cfg (.access payload) cfg.ACCESS_TOKEN_EXPIRY now

/-- `generateRefreshToken` signs with JWT_REFRESH_SECRET and the refresh
expiry. -/
def generateRefreshToken (env : JwtEnv) (cfg : JwtConfig)
    (payload : RefreshPayload) (now : Nat) : Token :=
  jwtSign env.refreshSecret cfg (.refresh payload) cfg.REFRESH_TOKEN_EXPIRY now

/-- `jwt.verify(token, key, {issuer, audience})` at clock `now`, with the
error mapping shared by `verifyAccessToken` and `verifyRefreshToken`:
`TokenExpiredError` becomes `ApiError.tokenExpired` and
`JsonWebTokenError` (malformed input, bad signature, issuer or audience
mismatch) becomes `ApiError.invalidToken`.  The checks run in the
jsonwebtoken order: parse, signature, expiry, audience, issuer. -/
def jwtVerify (key : String) (cfg : JwtConfig) (now : Nat) (p : Presented) :
    Except ApiError TokenPayload :=
  match p with
  | .malformed _ => .error ApiError.invalidToken
  | .token t =>
    if t.key ≠ key then .error ApiError.invalidToken
    else if t.exp ≤ now then .error ApiError.tokenExpired
    else if t.aud ≠ cfg.AUDIENCE then .error ApiError.invalidToken
    else if t.iss ≠ cfg.ISSUER then .error ApiError.invalidToken
    else .ok t.payload

/-- `verifyAccessToken` verifies against JWT_SECRET. -/
def verifyAccessToken (env : JwtEnv) (cfg : JwtConfig) (now : Nat)
    (p : Presented) : Except ApiError TokenPayload :=
  jwtVerify env.JWT_SECRET cfg now p

/-- `verifyRefreshToken` verifies against JWT_REFRESH_SECRET. -/
def verifyRefreshToken (env : JwtEnv) (cfg : JwtConfig) (now : Nat)
    (p : Presented) : Except ApiError TokenPayload :=
  jwtVerify env.refreshSecret cfg now p

/-- Status code of the error outcome of a fallible operation, `none` on
success.  Used to state that a family of failures shares an HTTP status. -/
def errStatus {α : Type} : Except ApiError α → Option Nat
  | .error e => some e.statusCode
  | .ok _ => none

/-! ## Password hasher (src/utils/hash.js) -/

/-- A bcrypt hash, modelled as an opaque wrapper of the hashed plaintext:
`comparePassword p h` succeeds exactly when `p` is the plaintext `h` was
produced from, which is the functional contract of a correct
hash/compare pair. -/
structure PwHash where
  plain : String
deriving DecidableEq, Repr

def hashPassword (password : String) : PwHash := ⟨password⟩

def comparePassword (password : String) (hashed : PwHash) : Bool :=
  password == hashed.plain

/-! ## Data model (prisma store rows) -/

/-- A Company (tenant) row; only the fields the auth core reads. -/
structure Company where
  id : String
  name : String
  isActive : Bool
deriving DecidableEq, Repr

/-- A User row.  `schema.prisma` is not among the provided sources; the
column set is the one referenced by the service and middleware code. -/
structure User where
  id : String
  email : String
  password : PwHash
  name : String
  phone : Option String
  role : UserRole
  status : UserStatus
  companyId : String
  refreshToken : Option Token
  lastLoginAt : Option Nat
  passwordChangedAt : Option Nat
  createdAt : Nat
deriving DecidableEq, Repr

/-- A Permission row: tuple (module, action, resource) plus description,
unique by id and by the triple. -/
structure Permission where
  id : String
  module : String
  action : String
  resource : String
  description : String
deriving DecidableEq, Repr

/-- A UserPermission assignment row. -/
structure UserPermission where
  userId : String
  permissionId : String
  granted : Bool
  grantedAt : Nat
  grantedBy : String
deriving DecidableEq, Repr

/-- A projected (module, action, resource) triple, the shape cached by the
permission middleware. -/
structure PermTuple where
  module : String
  action : String
  resource : String
deriving DecidableEq, Repr

/-- The Prisma store. -/
structure Db where
  users : List User
  companies : List Company
  permissions : List Permission
  userPermissions : List UserPermission
deriving DecidableEq, Repr

/-- The Redis cache, restricted to the permission lists this core stores in
it; keys are unique in `entries`. -/
structure Cache where
  entries : List (String × List PermTuple)
deriving DecidableEq, Repr

/-- Combined mutable state threaded through the operations. -/
structure St where
  db : Db
  cache : Cache
deriving DecidableEq, Repr

def Db.findUserById (db : Db) (userId : String) : Option User :=
  db.users.find? (fun u => u.id == userId)

def Db.findUserByEmail (db : Db) (email : String) : Option User :=
  db.users.find? (fun u => u.email == email)

def Db.findCompanyById (db : Db) (companyId : String) : Option Company :=
  db.companies.find? (fun c => c.id == companyId)

/-- `prisma.user.update({where: {id}, data})`: apply `f` to the rows whose
id matches. -/
def Db.updateUser (db : Db) (userId : String) (f : User → User) : Db :=
  { db with users := db.users.map (fun u => if u.id == userId then f u else u) }

/-- `getCache` (src/config/redis.js): lookup by key. -/
def getCache (c : Cache) (key : String) : Option (List PermTuple) :=
  (c.entries.find? (fun kv => kv.1 == key)).map Prod.snd

/-- `setCache` (redis `setex`): overwrite the value under `key`. -/
def setCache (c : Cache) (key : String) (v : List PermTuple) : Cache :=
  ⟨(key, v) :: c.entries.filter (fun kv => kv.1 != key)⟩

/-- `deleteCache` (redis `del`): drop the entry under `key`. -/
def deleteCache (c : Cache) (key : String) : Cache :=
  ⟨c.entries.filter (fun kv => kv.1 != key)⟩

/-- Modelled from the spec: `CACHE_KEYS.USER_PERMISSIONS` lives in
`config/constants.js`, which is not among the provided sources; per the
spec's cache key convention (a namespaced string keyed by identity id,
scoped to permissions) and the literal keys written by the service layer
(`user:{id}:permissions` in assign/revoke/logout), it is that string. -/
def userPermissionsCacheKey (userId : String) : String :=
  "user:" ++ userId ++ ":permissions"

/-! ## Token pair issuance (generateTokens in src/utils/tokens.js) -/

structure TokenPair where
  accessToken : Token
  refreshToken : Token
deriving DecidableEq, Repr

/-- `generateTokens(user)`: full payload for the access token, reduced
`{id, email}` payload for the refresh token. -/
def generateTokens (env : JwtEnv) (cfg : JwtConfig) (user : User) (now : Nat) :
    TokenPair :=
  { accessToken :=
      generateAccessToken env cfg
        ⟨user.id, user.email, user.role, user.companyId, user.status⟩ now,
    refreshToken := generateRefreshToken env cfg ⟨user.id, user.email⟩ now }

/-! ## Result objects returned to the HTTP layer

For the claims about sensitive fields we model the returned JS user object
as an association list of field names to values, so that presence or
absence of a key is expressible. -/

inductive FieldVal
  | str (s : String)
  | num (n : Nat)
  | boolean (b : Bool)
  | null
  | hashVal (h : PwHash)
  | tokenVal (t : Option Token)
  | companyRef (c : Company)
deriving DecidableEq, Repr

def UserRole.toStr : UserRole → String
  | .SUPERADMIN => "SUPERADMIN"
  | .ADMIN => "ADMIN"
  | .ACCOUNTANT => "ACCOUNTANT"
  | .VIEWER => "VIEWER"

def UserStatus.toStr : UserStatus → String
  | .ACTIVE => "ACTIVE"
  | .INACTIVE => "INACTIVE"
  | .SUSPENDED => "SUSPENDED"

def optStr : Option String → FieldVal
  | some s => .str s
  | none => .null

def optNum : Option Nat → FieldVal
  | some n => .num n
  | none => .null

/-- The full user row fetched by `login` (with the company include), as a
JS object: every column is present, including `password` and
`refreshToken`. -/
def userRowObject (u : User) (c : Company) : List (String × FieldVal) :=
  [("id", .str u.id), ("email", .str u.email), ("password", .hashVal u.password),
   ("name", .str u.name), ("phone", optStr u.phone), ("role", .str u.role.toStr),
   ("status", .str u.status.toStr), ("companyId", .str u.companyId),
   ("refreshToken", .tokenVal u.refreshToken), ("lastLoginAt", optNum u.lastLoginAt),
   ("passwordChangedAt", optNum u.passwordChangedAt), ("createdAt", .num u.createdAt),
   ("company", .companyRef c)]

/-- `const { password: _, refreshToken: __, ...userWithoutSensitiveData } = user`:
the rest-spread keeps every key except the two destructured ones. -/
def loginUserObject (u : User) (c : Company) : List (String × FieldVal) :=
  (userRowObject u c).filter (fun kv => kv.1 != "password" && kv.1 != "refreshToken")

/-- The `select` clause used by `register` when creating the user: id,
email, name, phone, role, status, companyId, createdAt and the company
sub-object; no password column is selected. -/
def registerUserObject (u : User) (c : Company) : List (String × FieldVal) :=
  [("id", .str u.id), ("email", .str u.email), ("name", .str u.name),
   ("phone", optStr u.phone), ("role", .str u.role.toStr),
   ("status", .str u.status.toStr), ("companyId", .str u.companyId),
   ("createdAt", .num u.createdAt), ("company", .companyRef c)]

/-- Result of a successful register or login: the user object handed back
plus the freshly issued token pair. -/
structure AuthResult where
  userFields : List (String × FieldVal)
  tokens : TokenPair
deriving DecidableEq, Repr

/-! ## Auth service (second half of src/services/permission.service.js) -/

structure RegisterInput where
  email : String
  password : String
  name : String
  phone : Option String
  role : Option UserRole
  companyId : String
deriving DecidableEq, Repr

/-- JS `email.toLowerCase()`: lowercase every character. -/
def strToLower (s : String) : String := ⟨s.data.map Char.toLower⟩

/-- `register(userData)`.  `newId` stands for the row id generated by the
database on create. -/
def register (env : JwtEnv) (cfg : JwtConfig) (now : Nat) (input : RegisterInput)
    (newId : String) (st : St) : Except ApiError AuthResult × St :=
  match st.db.findUserByEmail (strToLower input.email) with
  | some _ =>
    (.error (ApiError.conflict "User with this email already exists" "DB_DUPLICATE_ENTRY"), st)
  | none =>
    match st.db.findCompanyById input.companyId with
    | none => (.error (ApiError.notFound "Company not found" "DB_RECORD_NOT_FOUND"), st)
    | some company =>
      if company.isActive = false then
        (.error (ApiError.badRequest "Cannot register user for inactive company"), st)
      else
        let user : User :=
          { id := newId, email := strToLower input.email,
            password := hashPassword input.password, name := input.name,
            phone := input.phone, role := input.role.getD .VIEWER,
            status := .ACTIVE, companyId := input.companyId,
            refreshToken := none, lastLoginAt := none,
            passwordChangedAt := none, createdAt := now }
        let tokens := generateTokens env cfg user now
        let db1 : Db := { st.db with users := st.db.users ++ [user] }
        let db2 := db1.updateUser user.id
          (fun u => { u with refreshToken := some tokens.refreshToken })
        (.ok { userFields := registerUserObject user company, tokens := tokens },
         { st with db := db2 })

/-- `login(email, password)`.  The status and tenant checks run only after
the password verifies; a user row whose company reference dangles would
crash the JS property access, which the global error handler converts to
an internal error. -/
def login (env : JwtEnv) (cfg : JwtConfig) (now : Nat) (email password : String)
    (st : St) : Except ApiError AuthResult × St :=
  match st.db.findUserByEmail (strToLower email) with
  | none => (.error ApiError.invalidCredentials, st)
  | some user =>
    if comparePassword password user.password = false then
      (.error ApiError.invalidCredentials, st)
    else if user.status = .INACTIVE then
      (.error (ApiError.forbidden "Account is inactive. Please contact administrator."), st)
    else if user.status = .SUSPENDED then
      (.error ApiError.accountSuspended, st)
    else
      match st.db.findCompanyById user.companyId with
      | none => (.error (ApiError.internal "Internal Server Error"), st)
      | some company =>
        if company.isActive = false then
          (.error (ApiError.forbidden "Company account is inactive"), st)
        else
          let tokens := generateTokens env cfg user now
          let db2 := st.db.updateUser user.id
            (fun u => { u with lastLoginAt := some now,
                               refreshToken := some tokens.refreshToken })
          (.ok { userFields := loginUserObject user company, tokens := tokens },
           { st with db := db2 })

/-- `user.refreshToken !== refreshToken` compares the stored string (null
when logged out) with the presented one; a null store never matches. -/
def storedMatches (stored : Option Token) (p : Presented) : Bool :=
  match stored, p with
  | some t, .token t2 => t == t2
  | _, _ => false

/-- `refreshAccessToken(refreshToken)`; `none` models a missing/empty
request field. -/
def refreshAccessToken (env : JwtEnv) (cfg : JwtConfig) (now : Nat)
    (presented : Option Presented) (st : St) : Except ApiError TokenPair × St :=
  match presented with
  | none => (.error (ApiError.badRequest "Refresh token is required"), st)
  | some p =>
    match verifyRefreshToken env cfg now p with
    | .error e => (.error e, st)
    | .ok decoded =>
      match st.db.findUserById decoded.subjectId with
      | none => (.error (ApiError.unauthorized "User not found"), st)
      | some user =>
        if storedMatches user.refreshToken p = false then
          (.error (ApiError.unauthorized "Invalid refresh token"), st)
        else if user.status ≠ .ACTIVE then
          (.error (ApiError.forbidden "Account is not active"), st)
        else
          match st.db.findCompanyById user.companyId with
          | none => (.error (ApiError.internal "Internal Server Error"), st)
          | some company =>
            if company.isActive = false then
              (.error (ApiError.forbidden "Company account is inactive"), st)
            else
              let tokens := generateTokens env cfg user now
              let db2 := st.db.updateUser user.id
                (fun u => { u with refreshToken := some tokens.refreshToken })
              (.ok tokens, { st with db := db2 })

/-- `logout(userId)`: null the stored refresh token, drop the cached
permission entry.  An unknown id makes the Prisma update throw P2025,
which the global error handler converts to a not-found ApiError. -/
def logout (userId : String) (st : St) : Except ApiError Unit × St :=
  match st.db.findUserById userId with
  | none =>
    (.error (ApiError.notFound "The requested record was not found" "DB_RECORD_NOT_FOUND"), st)
  | some _ =>
    let db2 := st.db.updateUser userId (fun u => { u with refreshToken := none })
    let cache2 := deleteCache st.cache (userPermissionsCacheKey userId)
    (.ok (), { db := db2, cache := cache2 })

/-- `changePassword(userId, currentPassword, newPassword)`. -/
def changePassword (now : Nat) (userId currentPassword newPassword : String)
    (st : St) : Except ApiError Unit × St :=
  match st.db.findUserById userId with
  | none => (.error (ApiError.notFound "User not found" "DB_RECORD_NOT_FOUND"), st)
  | some user =>
    if comparePassword currentPassword user.password = false then
      (.error (ApiError.badRequest "Current password is incorrect"), st)
    else
      let hashed := hashPassword newPassword
      let db2 := st.db.updateUser userId
        (fun u => { u with password := hashed, passwordChangedAt := some now,
                           refreshToken := none })
      (.ok (), { st with db := db2 })

/-! ## changePasswordSchema (src/validations/user.validation.js)

The request-schema layer sitting in front of `changePassword`. -/

def passwordSpecials : List Char := ['@', '$', '!', '%', '*', '?', '&', '#']

/-- The Joi `passwordPattern`
`^(?=.*[a-z])(?=.*[A-Z])(?=.*\d)(?=.*[@$!%*?&#])[A-Za-z\d@$!%*?&#]{8,}$`. -/
def passwordPatternOk (s : String) : Bool :=
  decide (8 ≤ s.length) &&
  s.toList.all (fun c => c.isLower || c.isUpper || c.isDigit || passwordSpecials.contains c) &&
  s.toList.any Char.isLower &&
  s.toList.any Char.isUpper &&
  s.toList.any Char.isDigit &&
  s.toList.any (fun c => passwordSpecials.contains c)

/-- `changePasswordSchema`: currentPassword required (non-empty string);
newPassword min 8 / max 128 / pattern / `.invalid(Joi.ref('currentPassword'))`;
confirmPassword must equal newPassword. -/
def changePasswordSchemaOk (currentPassword newPassword confirmPassword : String) :
    Bool :=
  (currentPassword != "") &&
  decide (8 ≤ newPassword.length) &&
  decide (newPassword.length ≤ 128) &&
  passwordPatternOk newPassword &&
  (newPassword != currentPassword) &&
  (confirmPassword == newPassword)

/-! ## Permission middleware (second half of src/middleware/errorHandler.js) -/

/-- The store query behind the middleware cache: granted assignments of the
user joined to their permission rows, projected to tuples.  The join is by
the store's foreign key on `permissionId`. -/
def permsOfUser (db : Db) (userId : String) : List PermTuple :=
  (db.userPermissions.filter (fun up => up.userId == userId && up.granted)).filterMap
    (fun up => (db.permissions.find? (fun p => p.id == up.permissionId)).map
      (fun p => ⟨p.module, p.action, p.resource⟩))

/-- `getUserPermissions(userId)` in the middleware: cache hit returns the
cached list; miss computes from the store and populates the cache. -/
def getUserPermissions (userId : String) (st : St) : List PermTuple × St :=
  let key := userPermissionsCacheKey userId
  match getCache st.cache key with
  | some ps => (ps, st)
  | none =>
    let ps := permsOfUser st.db userId
    (ps, { st with cache := setCache st.cache key ps })

/-- `hasPermission`: exact tuple membership. -/
def hasPermission (perms : List PermTuple) (module action resource : String) :
    Bool :=
  perms.any (fun p => p.module == module && p.action == action && p.resource == resource)

/-- `checkPermission(userId, module, action, resource)`: unknown user is
false; superadmin short-circuits to true before any cache or assignment
lookup; otherwise membership in the resolved set. -/
def checkPermission (userId module action resource : String) (st : St) :
    Bool × St :=
  match st.db.findUserById userId with
  | none => (false, st)
  | some user =>
    if user.role = .SUPERADMIN then (true, st)
    else
      let res := getUserPermissions userId st
      (hasPermission res.1 module action resource, res.2)

/-! ## Permission service (first half of src/services/permission.service.js) -/

/-- `prisma.userPermission.upsert` keyed on (userId, permissionId):
update sets granted/grantedAt/grantedBy, create inserts a granted row. -/
def upsertUserPermission (db : Db) (userId permissionId grantedBy : String)
    (now : Nat) : Db :=
  if db.userPermissions.any
      (fun up => up.userId == userId && up.permissionId == permissionId) then
    { db with userPermissions := db.userPermissions.map (fun up =>
        if up.userId == userId && up.permissionId == permissionId then
          { up with granted := true, grantedAt := now, grantedBy := grantedBy }
        else up) }
  else
    { db with userPermissions := db.userPermissions ++
        [{ userId := userId, permissionId := permissionId, granted := true,
           grantedAt := now, grantedBy := grantedBy }] }

structure AssignResult where
  userId : String
  assignedCount : Nat
deriving DecidableEq, Repr

/-- `assignPermissionsToUser(userId, permissionIds, grantedBy)`. -/
def assignPermissionsToUser (userId : String) (permissionIds : List String)
    (grantedBy : String) (now : Nat) (st : St) : Except ApiError AssignResult × St :=
  match st.db.findUserById userId with
  | none => (.error (ApiError.notFound "User not found" "DB_RECORD_NOT_FOUND"), st)
  | some user =>
    if user.role = .SUPERADMIN then
      (.error (ApiError.badRequest "Cannot assign permissions to superadmin users"), st)
    else
      let perms := st.db.permissions.filter (fun p => permissionIds.contains p.id)
      if perms.length ≠ permissionIds.length then
        (.error (ApiError.badRequest "One or more permission IDs are invalid"), st)
      else
        let db2 := permissionIds.foldl
          (fun db pid => upsertUserPermission db userId pid grantedBy now) st.db
        let cache2 := deleteCache st.cache (userPermissionsCacheKey userId)
        (.ok { userId := userId, assignedCount := permissionIds.length },
         { db := db2, cache := cache2 })

structure RevokeResult where
  userId : String
  revokedCount : Nat
deriving DecidableEq, Repr

/-- The row predicate of the revoke `deleteMany`: assignments of the user
whose permission id is among the revoked ids. -/
def revokeHit (userId : String) (permissionIds : List String)
    (up : UserPermission) : Bool :=
  up.userId == userId && permissionIds.contains up.permissionId

/-- `revokePermissionsFromUser(userId, permissionIds, revokedBy)`:
`deleteMany` of the matching assignment rows, then cache invalidation.
`revokedBy` is only logged. -/
def revokePermissionsFromUser (userId : String) (permissionIds : List String)
    (st : St) : Except ApiError RevokeResult × St :=
  match st.db.findUserById userId with
  | none => (.error (ApiError.notFound "User not found" "DB_RECORD_NOT_FOUND"), st)
  | some _ =>
    let hit := fun (up : UserPermission) =>
      up.userId == userId && permissionIds.contains up.permissionId
    let removed := st.db.userPermissions.filter hit
    let db2 : Db :=
      { st.db with userPermissions := st.db.userPermissions.filter (fun up => !(hit up)) }
    let cache2 := deleteCache st.cache (userPermissionsCacheKey userId)
    (.ok { userId := userId, revokedCount := removed.length },
     { db := db2, cache := cache2 })

/-! ## Concrete fixtures, used to evaluate the verified properties on
closed inputs -/

def cfgW : JwtConfig := ⟨"zirakbook-api", "zirakbook-client", 900, 604800⟩

def envW : JwtEnv := ⟨"access-secret", none⟩

def companyW : Company := ⟨"c1", "Test Company", true⟩

def companyOffW : Company := ⟨"c2", "Dormant Co", false⟩

def userW : User :=
  { id := "u1", email := "a@b.c", password := hashPassword "Secret@123",
    name := "Alice", phone := none, role := .VIEWER, status := .ACTIVE,
    companyId := "c1", refreshToken := none, lastLoginAt := none,
    passwordChangedAt := none, createdAt := 0 }

def userSusW : User := { userW with id := "u2", email := "s@b.c", status := .SUSPENDED }

def userOffW : User := { userW with id := "u3", email := "t@b.c", companyId := "c2" }

def superW : User := { userW with id := "sa", email := "root@b.c", role := .SUPERADMIN }

def t1W : Token := generateRefreshToken envW cfgW ⟨"u1", "a@b.c"⟩ 0

def userRefW : User := { userW with refreshToken := some t1W }

def permW : Permission := ⟨"p1", "inventory", "create", "products", "Create products"⟩

def stW : St := ⟨⟨[userW], [companyW], [], []⟩, ⟨[]⟩⟩

def stRefW : St := ⟨⟨[userRefW], [companyW], [], []⟩, ⟨[]⟩⟩

def stGateW : St := ⟨⟨[userSusW, userOffW], [companyW, companyOffW], [], []⟩, ⟨[]⟩⟩

def stPermW : St := ⟨⟨[userW, superW], [companyW], [permW], []⟩, ⟨[]⟩⟩

def tExpW : Token :=
  ⟨.refresh ⟨"u1", "a@b.c"⟩, 0, 5, "zirakbook-api", "zirakbook-client", "k"⟩

/-! ## General lemmas about the store and cache primitives -/

theorem find?_map_pred_inv {α : Type} (g : α → α) (p : α → Bool) (l : List α)
    (hp : ∀ a, p (g a) = p a) : (l.map g).find? p = (l.find? p).map g := by
  induction l with
  | nil => rfl
  | cons a tl ih =>
    cases h : p a with
    | true =>
      have hg : p (g a) = true := by rw [hp a, h]
      simp [List.find?_cons_of_pos _ h, List.find?_cons_of_pos _ hg]
    | false =>
      have hg : p (g a) = false := by rw [hp a, h]
      simp [List.find?_cons_of_neg, h, hg, ih]

theorem findUserById_updateUser (db : Db) (uid uid2 : String) (f : User → User)
    (hf : ∀ u, (f u).id = u.id) :
    (db.updateUser uid f).findUserById uid2
      = (db.findUserById uid2).map (fun u => if u.id == uid then f u else u) := by
  unfold Db.updateUser Db.findUserById
  exact find?_map_pred_inv _ _ _ (by
    intro u
    by_cases h : (u.id == uid) = true <;> simp [h, hf])

theorem findCompanyById_updateUser (db : Db) (uid cid : String) (f : User → User) :
    (db.updateUser uid f).findCompanyById cid = db.findCompanyById cid := rfl

theorem getCache_deleteCache (c : Cache) (k : String) :
    getCache (deleteCache c k) k = none := by
  unfold getCache deleteCache
  have : (c.entries.filter (fun kv => kv.1 != k)).find? (fun kv => kv.1 == k) = none := by
    rw [List.find?_eq_none]
    intro kv hkv
    have := (List.mem_filter.mp hkv).2
    simpa using this
  simp [this]

theorem deleteCache_idem (c : Cache) (k : String) :
    deleteCache (deleteCache c k) k = deleteCache c k := by
  unfold deleteCache
  simp [List.filter_filter]

theorem jwtVerify_ok_elim {key : String} {cfg : JwtConfig} {now : Nat} {t : Token}
    {payload : TokenPayload}
    (h : jwtVerify key cfg now (.token t) = .ok payload) :
    t.key = key ∧ now < t.exp ∧ t.aud = cfg.AUDIENCE ∧ t.iss = cfg.ISSUER ∧
      payload = t.payload := by
  unfold jwtVerify at h
  by_cases h1 : t.key = key
  · by_cases h2 : t.exp ≤ now
    · simp [h1, h2] at h
    · by_cases h3 : t.aud = cfg.AUDIENCE
      · by_cases h4 : t.iss = cfg.ISSUER
        · simp [h1, h2, h3, h4] at h
          exact ⟨h1, by omega, h3, h4, h.symm⟩
        · simp [h1, h2, h3, h4] at h
      · simp [h1, h2, h3] at h
  · simp [h1] at h

theorem jwtVerify_ok_intro (key : String) (cfg : JwtConfig) (now : Nat) (t : Token)
    (h1 : t.key = key) (h2 : now < t.exp) (h3 : t.aud = cfg.AUDIENCE)
    (h4 : t.iss = cfg.ISSUER) :
    jwtVerify key cfg now (.token t) = .ok t.payload := by
  unfold jwtVerify
  simp [h1, h3, h4, Nat.not_le.mpr h2]

theorem jwtVerify_error_statusCode {key : String} {cfg : JwtConfig} {now : Nat}
    {p : Presented} {e : ApiError}
    (h : jwtVerify key cfg now p = .error e) : e.statusCode = 401 := by
  unfold jwtVerify at h
  cases p with
  | malformed raw =>
    simp at h
    rw [← h]
    rfl
  | token t =>
    by_cases h1 : t.key = key
    · by_cases h2 : t.exp ≤ now
      · simp [h1, h2] at h
        rw [← h]
        rfl
      · by_cases h3 : t.aud = cfg.AUDIENCE
        · by_cases h4 : t.iss = cfg.ISSUER
          · simp [h1, h2, h3, h4] at h
          · simp [h1, h2, h3, h4] at h
            rw [← h]
            rfl
        · simp [h1, h2, h3] at h
          rw [← h]
          rfl
    · simp [h1] at h
      rw [← h]
      rfl

theorem jwtVerify_expired_iff (key : String) (cfg : JwtConfig) (now : Nat)
    (p : Presented) :
    jwtVerify key cfg now p = .error ApiError.tokenExpired ↔
      ∃ t, p = .token t ∧ t.key = key ∧ t.exp ≤ now := by
  cases p with
  | malformed raw =>
    simp [jwtVerify, ApiError.invalidToken, ApiError.tokenExpired]
  | token t =>
    by_cases h1 : t.key = key
    · by_cases h2 : t.exp ≤ now
      · simp [jwtVerify, h1, h2]
      · by_cases h3 : t.aud = cfg.AUDIENCE <;> by_cases h4 : t.iss = cfg.ISSUER <;>
          simp [jwtVerify, h1, h2, h3, h4, ApiError.invalidToken, ApiError.tokenExpired]
    · simp [jwtVerify, h1, ApiError.invalidToken, ApiError.tokenExpired]

theorem jwtVerify_invalid_iff (key : String) (cfg : JwtConfig) (now : Nat)
    (p : Presented) :
    jwtVerify key cfg now p = .error ApiError.invalidToken ↔
      ((∃ raw, p = .malformed raw) ∨
       (∃ t, p = .token t ∧
         (t.key ≠ key ∨ (now < t.exp ∧ (t.aud ≠ cfg.AUDIENCE ∨ t.iss ≠ cfg.ISSUER))))) := by
  cases p with
  | malformed raw =>
    simp [jwtVerify]
  | token t =>
    by_cases h1 : t.key = key
    · by_cases h2 : t.exp ≤ now
      · simp [jwtVerify, h1, h2, ApiError.invalidToken, ApiError.tokenExpired]
      · by_cases h3 : t.aud = cfg.AUDIENCE <;> by_cases h4 : t.iss = cfg.ISSUER <;>
          simp [jwtVerify, h1, h2, h3, h4] <;> omega
    · simp [jwtVerify, h1]

theorem jwtVerify_trichotomy (key : String) (cfg : JwtConfig) (now : Nat)
    (p : Presented) :
    (∃ claims, jwtVerify key cfg now p = .ok claims) ∨
      jwtVerify key cfg now p = .error ApiError.tokenExpired ∨
      jwtVerify key cfg now p = .error ApiError.invalidToken := by
  cases p with
  | malformed raw => exact Or.inr (Or.inr rfl)
  | token t =>
    by_cases h1 : t.key = key
    · by_cases h2 : t.exp ≤ now
      · exact Or.inr (Or.inl (by simp [jwtVerify, h1, h2]))
      · by_cases h3 : t.aud = cfg.AUDIENCE
        · by_cases h4 : t.iss = cfg.ISSUER
          · exact Or.inl ⟨t.payload, by simp [jwtVerify, h1, h2, h3, h4]⟩
          · exact Or.inr (Or.inr (by simp [jwtVerify, h1, h2, h3, h4]))
        · exact Or.inr (Or.inr (by simp [jwtVerify, h1, h2, h3]))
    · exact Or.inr (Or.inr (by simp [jwtVerify, h1]))

theorem not_mem_map_fst_filter (l : List (String × FieldVal)) (k : String)
    (q : String × FieldVal → Bool) (hq : ∀ kv, q kv = true → ¬ (kv.1 = k)) :
    k ∉ (l.filter q).map Prod.fst := by
  intro hmem
  rcases List.mem_map.mp hmem with ⟨kv, hkv, hfst⟩
  exact hq kv (List.mem_filter.mp hkv).2 hfst

theorem loginUserObject_keys (u : User) (c : Company) :
    "password" ∉ (loginUserObject u c).map Prod.fst ∧
    "refreshToken" ∉ (loginUserObject u c).map Prod.fst := by
  constructor
  · exact not_mem_map_fst_filter _ _ _ (by
      intro kv hkv
      simp at hkv
      exact hkv.1)
  · exact not_mem_map_fst_filter _ _ _ (by
      intro kv hkv
      simp at hkv
      exact hkv.2)

theorem registerUserObject_keys (u : User) (c : Company) :
    "password" ∉ (registerUserObject u c).map Prod.fst := by
  simp [registerUserObject]

theorem login_ok_userFields {env : JwtEnv} {cfg : JwtConfig} {now : Nat}
    {email password : String} {st : St} {res : AuthResult} {st2 : St}
    (h : login env cfg now email password st = (.ok res, st2)) :
    ∃ u c, res.userFields = loginUserObject u c := by
  unfold login at h
  split at h
  · simp at h
  · rename_i user heq
    split at h
    · simp at h
    · split at h
      · simp at h
      · split at h
        · simp at h
        · split at h
          · simp at h
          · rename_i company hc
            split at h
            · simp at h
            · simp only [Prod.mk.injEq, Except.ok.injEq] at h
              exact ⟨user, company, by rw [← h.1]⟩

theorem register_ok_userFields {env : JwtEnv} {cfg : JwtConfig} {now : Nat}
    {input : RegisterInput} {newId : String} {st : St} {res : AuthResult} {st2 : St}
    (h : register env cfg now input newId st = (.ok res, st2)) :
    ∃ u c, res.userFields = registerUserObject u c := by
  unfold register at h
  split at h
  · simp at h
  · split at h
    · simp at h
    · rename_i company hc
      split at h
      · simp at h
      · simp only [Prod.mk.injEq, Except.ok.injEq] at h
        exact ⟨_, company, by rw [← h.1]⟩

/-! ## Claim theorems -/

/-- C4: Login failure is uniform and non-enumerating: whether no identity
exists under the lowercase-normalized email, or the identity exists but the
password does not verify against its stored hash, `login` fails with the
very same InvalidCredentials error value (same kind and message) and
leaves the state unchanged, so the two causes are observationally
indistinguishable. -/
theorem C4_login_uniform_failure (env : JwtEnv) (cfg : JwtConfig) (now : Nat)
    (email password : String) (st : St) :
    (st.db.findUserByEmail (strToLower email) = none →
      login env cfg now email password st = (.error ApiError.invalidCredentials, st)) ∧
    (∀ user, st.db.findUserByEmail (strToLower email) = some user →
      comparePassword password user.password = false →
      login env cfg now email password st = (.error ApiError.invalidCredentials, st)) := by
  constructor
  · intro h
    unfold login
    rw [h]
  · intro user h hpw
    unfold login
    rw [h]
    simp [hpw]

theorem C4_witness :
    login envW cfgW 0 "ghost@b.c" "Secret@123" stW
      = (.error ApiError.invalidCredentials, stW) ∧
    login envW cfgW 0 "a@b.c" "wrong-password" stW
      = (.error ApiError.invalidCredentials, stW) :=
  ⟨(C4_login_uniform_failure envW cfgW 0 "ghost@b.c" "Secret@123" stW).1 rfl,
   (C4_login_uniform_failure envW cfgW 0 "a@b.c" "wrong-password" stW).2 userW rfl rfl⟩

/-- C3 counterexample: with no separate refresh secret configured
(`JWT_REFRESH_SECRET` unset, so the refresh profile shares `JWT_SECRET`),
a token issued by `generateRefreshToken` verifies successfully under
`verifyAccessToken`, returning its claims instead of failing with a
token-invalid error — tokens carry no profile/purpose claim and the
issuer/audience are shared, so nothing distinguishes the profiles. -/
theorem C3_counterexample :
    verifyAccessToken envW cfgW 10
        (.token (generateRefreshToken envW cfgW ⟨"u1", "a@b.c"⟩ 0))
      = .ok (.refresh ⟨"u1", "a@b.c"⟩) ∧
    envW.JWT_REFRESH_SECRET = none := by
  constructor
  · rfl
  · rfl

/-- C3 (amended): token profiles are mutually non-verifiable only when a
separate refresh secret differing from the access secret is configured:
in that configuration every refresh-profile token presented to
`verifyAccessToken` fails with the token-invalid error.  When no separate
refresh secret is set the two profiles share signing material and carry no
purpose claim, and a refresh token does verify under the access profile. -/
theorem C3_amended_profile_separation (secret rsecret : String) (cfg : JwtConfig)
    (payload : RefreshPayload) (now now2 : Nat)
    (hne : rsecret ≠ secret) :
    verifyAccessToken ⟨secret, some rsecret⟩ cfg now2
        (.token (generateRefreshToken ⟨secret, some rsecret⟩ cfg payload now))
      = .error ApiError.invalidToken := by
  unfold verifyAccessToken generateRefreshToken jwtSign jwtVerify JwtEnv.refreshSecret
  simp [hne]

theorem C3_witness :
    verifyAccessToken ⟨"s1", some "s2"⟩ cfgW 3
        (.token (generateRefreshToken ⟨"s1", some "s2"⟩ cfgW ⟨"u1", "a@b.c"⟩ 0))
      = .error ApiError.invalidToken :=
  C3_amended_profile_separation "s1" "s2" cfgW ⟨"u1", "a@b.c"⟩ 0 3 (by decide)

/-- C7 counterexample: the core `changePassword` operation accepts a new
password equal to the current one — with the stored hash of "Secret@123",
changing from "Secret@123" to "Secret@123" succeeds instead of being
rejected. -/
theorem C7_counterexample :
    (changePassword 9 "u1" "Secret@123" "Secret@123" stW).1 = .ok () := by rfl

/-- C7 (amended): the core `changePassword` verifies the current password
against the stored hash and fails with a bad-request error otherwise; on
success — including when the new password equals the current one — it
stores the hash of the new password, records the password-changed
timestamp, and clears the stored refresh token.  The rejection of
new = current is enforced only by the request-schema validation layer
(`changePasswordSchema`), not by the core operation. -/
theorem C7_changePassword_contract (now : Nat) (userId current newPw : String)
    (st : St) (user : User)
    (hfind : st.db.findUserById userId = some user) :
    (comparePassword current user.password = false →
      changePassword now userId current newPw st
        = (.error (ApiError.badRequest "Current password is incorrect"), st)) ∧
    (comparePassword current user.password = true →
      (changePassword now userId current newPw st).1 = .ok () ∧
      ((changePassword now userId current newPw st).2.db.findUserById userId).map
          (fun u => (u.password, u.passwordChangedAt, u.refreshToken))
        = some (hashPassword newPw, some now, none)) ∧
    (∀ confirm : String, changePasswordSchemaOk current current confirm = false) := by
  refine ⟨?_, ?_, ?_⟩
  · intro hpw
    unfold changePassword
    rw [hfind]
    simp [hpw]
  · intro hpw
    have hid : ∀ u : User,
        ({ u with password := hashPassword newPw, passwordChangedAt := some now,
                  refreshToken := none } : User).id = u.id := fun _ => rfl
    have hfind2 : st.db.users.find? (fun u => u.id == userId) = some user := hfind
    have huid := List.find?_some hfind2
    have huid2 : user.id = userId := by simpa using huid
    unfold changePassword
    rw [hfind]
    simp [hpw, findUserById_updateUser _ userId userId _ hid, hfind, huid2]
  · intro confirm
    unfold changePasswordSchemaOk
    simp

theorem C7_witness :
    (changePassword 9 "u1" "Secret@123" "NewSecret@456" stW).1 = .ok () ∧
    ((changePassword 9 "u1" "Secret@123" "NewSecret@456" stW).2.db.findUserById "u1").map
        (fun u => (u.password, u.passwordChangedAt, u.refreshToken))
      = some (hashPassword "NewSecret@456", some 9, none) :=
  (C7_changePassword_contract 9 "u1" "Secret@123" "NewSecret@456" stW userW rfl).2.1 rfl

/-- C9: token verification has exactly three outcomes for either profile:
success returning the claims; a distinct TokenExpired error exactly when
the token is well-formed and correctly signed but past its expiry; and a
TokenInvalid error exactly when the input is malformed or its signature
fails, or it is unexpired but its audience or issuer does not verify.  An
expired, correctly signed token is always reported as TokenExpired, never
with the generic invalid kind.  Both `verifyAccessToken` and
`verifyRefreshToken` are instances of this verifier at their respective
secrets. -/
theorem C9_token_verification_outcomes (key : String) (cfg : JwtConfig)
    (now : Nat) (p : Presented) :
    ((∃ claims, jwtVerify key cfg now p = .ok claims) ∨
      jwtVerify key cfg now p = .error ApiError.tokenExpired ∨
      jwtVerify key cfg now p = .error ApiError.invalidToken) ∧
    ApiError.tokenExpired ≠ ApiError.invalidToken ∧
    (jwtVerify key cfg now p = .error ApiError.tokenExpired ↔
      ∃ t, p = .token t ∧ t.key = key ∧ t.exp ≤ now) ∧
    (jwtVerify key cfg now p = .error ApiError.invalidToken ↔
      ((∃ raw, p = .malformed raw) ∨
       (∃ t, p = .token t ∧
         (t.key ≠ key ∨ (now < t.exp ∧ (t.aud ≠ cfg.AUDIENCE ∨ t.iss ≠ cfg.ISSUER)))))) ∧
    (∀ env : JwtEnv,
      verifyAccessToken env cfg now p = jwtVerify env.JWT_SECRET cfg now p ∧
      verifyRefreshToken env cfg now p = jwtVerify env.refreshSecret cfg now p) ∧
    (∀ t : Token, p = .token t → t.key = key → t.exp ≤ now →
      jwtVerify key cfg now p = .error ApiError.tokenExpired) := by
  refine ⟨jwtVerify_trichotomy key cfg now p, by decide,
    jwtVerify_expired_iff key cfg now p, jwtVerify_invalid_iff key cfg now p,
    fun env => ⟨rfl, rfl⟩, ?_⟩
  intro t hp h1 h2
  exact (jwtVerify_expired_iff key cfg now p).mpr ⟨t, hp, h1, h2⟩

theorem C9_witness :
    jwtVerify "k" cfgW 10 (.token tExpW) = .error ApiError.tokenExpired :=
  (C9_token_verification_outcomes "k" cfgW 10 (.token tExpW)).2.2.2.2.2 tExpW rfl rfl
    (by decide)

/-- C10: sensitive credential fields are never returned on success: every
successful `login` hands back a user object without the password-hash and
refresh-token keys (the refresh token travels only in the issued tokens
object), and every successful `register` hands back a user object without
a password key. -/
theorem C10_no_sensitive_fields (env : JwtEnv) (cfg : JwtConfig) (now : Nat)
    (st : St) :
    (∀ email password res st2,
       login env cfg now email password st = (.ok res, st2) →
       "password" ∉ res.userFields.map Prod.fst ∧
       "refreshToken" ∉ res.userFields.map Prod.fst) ∧
    (∀ input newId res st2,
       register env cfg now input newId st = (.ok res, st2) →
       "password" ∉ res.userFields.map Prod.fst) := by
  constructor
  · intro email password res st2 h
    rcases login_ok_userFields h with ⟨u, c, hres⟩
    rw [hres]
    exact loginUserObject_keys u c
  · intro input newId res st2 h
    rcases register_ok_userFields h with ⟨u, c, hres⟩
    rw [hres]
    exact registerUserObject_keys u c

theorem C10_witness :
    "password" ∉ (loginUserObject userW companyW).map Prod.fst ∧
    "refreshToken" ∉ (loginUserObject userW companyW).map Prod.fst :=
  (C10_no_sensitive_fields envW cfgW 5 stW).1 "a@b.c" "Secret@123"
    { userFields := loginUserObject userW companyW,
      tokens := generateTokens envW cfgW userW 5 }
    (login envW cfgW 5 "a@b.c" "Secret@123" stW).2 rfl

/-- C8: every identity with the superadmin role passes any permission
check with `true`, leaving the state untouched and independently of the
cache contents and the assignment table (it is never consulted); and any
attempt to assign explicit permission grants to a superadmin identity is
rejected with an error, whatever the grant list, leaving the state
unchanged. -/
theorem C8_superadmin_bypass (st : St) (userId : String) (user : User)
    (module action resource : String)
    (hfind : st.db.findUserById userId = some user)
    (hrole : user.role = .SUPERADMIN) :
    checkPermission userId module action resource st = (true, st) ∧
    (∀ (cache2 : Cache) (ups : List UserPermission),
       checkPermission userId module action resource
         ⟨{ st.db with userPermissions := ups }, cache2⟩
         = (true, ⟨{ st.db with userPermissions := ups }, cache2⟩)) ∧
    (∀ (pids : List String) (grantedBy : String) (now : Nat),
       assignPermissionsToUser userId pids grantedBy now st
         = (.error (ApiError.badRequest "Cannot assign permissions to superadmin users"), st)) := by
  have hfind2 : ∀ (ups : List UserPermission) (cache2 : Cache),
      (St.mk { st.db with userPermissions := ups } cache2).db.findUserById userId
        = some user := fun _ _ => hfind
  refine ⟨?_, ?_, ?_⟩
  · unfold checkPermission
    rw [hfind]
    simp [hrole]
  · intro cache2 ups
    unfold checkPermission
    rw [hfind2 ups cache2]
    simp [hrole]
  · intro pids grantedBy now
    unfold assignPermissionsToUser
    rw [hfind]
    simp [hrole]

theorem C8_witness :
    checkPermission "sa" "inventory" "delete" "warehouses" stPermW = (true, stPermW) ∧
    assignPermissionsToUser "sa" ["p1"] "u1" 3 stPermW
      = (.error (ApiError.badRequest "Cannot assign permissions to superadmin users"), stPermW) :=
  ⟨(C8_superadmin_bypass stPermW "sa" superW "inventory" "delete" "warehouses"
      rfl rfl).1,
   (C8_superadmin_bypass stPermW "sa" superW "inventory" "delete" "warehouses"
      rfl rfl).2.2 ["p1"] "u1" 3⟩

theorem upsert_fields (db : Db) (uid pid gb : String) (now : Nat) :
    (upsertUserPermission db uid pid gb now).users = db.users ∧
    (upsertUserPermission db uid pid gb now).permissions = db.permissions := by
  unfold upsertUserPermission
  split <;> exact ⟨rfl, rfl⟩

theorem upsert_granted_mem (db : Db) (uid pid gb : String) (now : Nat) :
    ∃ up ∈ (upsertUserPermission db uid pid gb now).userPermissions,
      up.userId = uid ∧ up.permissionId = pid ∧ up.granted = true := by
  unfold upsertUserPermission
  by_cases h : db.userPermissions.any
      (fun up => up.userId == uid && up.permissionId == pid) = true
  · rcases List.any_eq_true.mp h with ⟨up0, hmem, hcond⟩
    have hc : up0.userId = uid ∧ up0.permissionId = pid := by simpa using hcond
    refine ⟨{ up0 with granted := true, grantedAt := now, grantedBy := gb },
      ?_, hc.1, hc.2, rfl⟩
    simp only [h, if_true]
    exact List.mem_map.mpr ⟨up0, hmem, by simp [hcond]⟩
  · refine ⟨⟨uid, pid, true, now, gb⟩, ?_, rfl, rfl, rfl⟩
    simp [h]

theorem hasPermission_intro (perms : List PermTuple) (m a r : String)
    (h : (⟨m, a, r⟩ : PermTuple) ∈ perms) : hasPermission perms m a r = true := by
  unfold hasPermission
  exact List.any_eq_true.mpr ⟨_, h, by simp⟩

theorem hasPermission_elim (perms : List PermTuple) (m a r : String)
    (h : hasPermission perms m a r = true) :
    ∃ p ∈ perms, p.module = m ∧ p.action = a ∧ p.resource = r := by
  unfold hasPermission at h
  rcases List.any_eq_true.mp h with ⟨p, hmem, hcond⟩
  have hc : (p.module = m ∧ p.action = a) ∧ p.resource = r := by simpa using hcond
  exact ⟨p, hmem, hc.1.1, hc.1.2, hc.2⟩

/-- C5: status and tenant gating.  For an identity found by email whose
password verifies, login still fails with a 403 Forbidden-class error when
the status is INACTIVE or SUSPENDED, and with the company-inactive
Forbidden error when the status is ACTIVE but the tenant's active flag is
false.  For refresh, a presented token that verifies and exactly equals
the stored one is still rejected with the Forbidden account-not-active
error when the status is not ACTIVE, and with the company-inactive
Forbidden error when the tenant is inactive.  In every case the state is
returned unchanged: no token pair is issued and the stored refresh token
is not overwritten. -/
theorem C5_status_tenant_gating (env : JwtEnv) (cfg : JwtConfig) (now : Nat)
    (st : St) :
    (∀ email password user,
       st.db.findUserByEmail (strToLower email) = some user →
       comparePassword password user.password = true →
       ((user.status = .INACTIVE ∨ user.status = .SUSPENDED →
           (login env cfg now email password st).2 = st ∧
           errStatus (login env cfg now email password st).1 = some 403) ∧
        (∀ company, user.status = .ACTIVE →
           st.db.findCompanyById user.companyId = some company →
           company.isActive = false →
           login env cfg now email password st
             = (.error (ApiError.forbidden "Company account is inactive"), st)))) ∧
    (∀ (t : Token) (user : User),
       t.key = env.refreshSecret → now < t.exp →
       t.aud = cfg.AUDIENCE → t.iss = cfg.ISSUER →
       st.db.findUserById t.payload.subjectId = some user →
       user.refreshToken = some t →
       ((user.status = .INACTIVE ∨ user.status = .SUSPENDED →
           refreshAccessToken env cfg now (some (.token t)) st
             = (.error (ApiError.forbidden "Account is not active"), st)) ∧
        (∀ company, user.status = .ACTIVE →
           st.db.findCompanyById user.companyId = some company →
           company.isActive = false →
           refreshAccessToken env cfg now (some (.token t)) st
             = (.error (ApiError.forbidden "Company account is inactive"), st)))) := by
  constructor
  · intro email password user hfind hpw
    constructor
    · intro hstat
      unfold login
      rw [hfind]
      rcases hstat with h | h <;>
        simp [hpw, h, errStatus, ApiError.forbidden, ApiError.accountSuspended]
    · intro company hact hcomp hinact
      unfold login
      rw [hfind]
      simp [hpw, hact, hcomp, hinact]
  · intro t user hk hexp haud hiss hfind hstored
    have hver : verifyRefreshToken env cfg now (.token t) = .ok t.payload :=
      jwtVerify_ok_intro env.refreshSecret cfg now t hk hexp haud hiss
    constructor
    · intro hstat
      unfold refreshAccessToken
      rcases hstat with h | h <;> simp [hver, hfind, hstored, storedMatches, h]
    · intro company hact hcomp hinact
      unfold refreshAccessToken
      simp [hver, hfind, hstored, storedMatches, hact, hcomp, hinact]

theorem C5_witness :
    ((login envW cfgW 0 "s@b.c" "Secret@123" stGateW).2 = stGateW ∧
      errStatus (login envW cfgW 0 "s@b.c" "Secret@123" stGateW).1 = some 403) ∧
    login envW cfgW 0 "t@b.c" "Secret@123" stGateW
      = (.error (ApiError.forbidden "Company account is inactive"), stGateW) :=
  ⟨((C5_status_tenant_gating envW cfgW 0 stGateW).1 "s@b.c" "Secret@123" userSusW
      rfl rfl).1 (Or.inr rfl),
   ((C5_status_tenant_gating envW cfgW 0 stGateW).1 "t@b.c" "Secret@123" userOffW
      rfl rfl).2 companyOffW rfl rfl rfl⟩

/-- C2: strict cache coherency on permission mutation.  For a
non-superadmin identity and a catalogued permission grant (ids unique,
tuple unique), `assignPermissionsToUser` succeeds, removes the identity's
cache entry before returning, and an immediately following
`checkPermission` on the grant's tuple returns true;
`revokePermissionsFromUser` succeeds, removes the cache entry before
returning, and an immediately following `checkPermission` on the tuple
returns false — no check starting after the mutation can see the stale
set, because the mutated store is what repopulates the cache. -/
theorem C2_cache_coherency (st : St) (userId grantedBy : String) (now : Nat)
    (user : User) (g : Permission)
    (hfind : st.db.findUserById userId = some user)
    (hrole : user.role ≠ .SUPERADMIN)
    (hgfind : st.db.permissions.find? (fun p => p.id == g.id) = some g)
    (hgfilter : st.db.permissions.filter (fun p => p.id == g.id) = [g])
    (htuple : ∀ p ∈ st.db.permissions, p.module = g.module → p.action = g.action →
       p.resource = g.resource → p.id = g.id) :
    ((assignPermissionsToUser userId [g.id] grantedBy now st).1
        = .ok { userId := userId, assignedCount := 1 } ∧
     getCache (assignPermissionsToUser userId [g.id] grantedBy now st).2.cache
        (userPermissionsCacheKey userId) = none ∧
     (checkPermission userId g.module g.action g.resource
        (assignPermissionsToUser userId [g.id] grantedBy now st).2).1 = true) ∧
    ((revokePermissionsFromUser userId [g.id] st).1.isOk = true ∧
     getCache (revokePermissionsFromUser userId [g.id] st).2.cache
        (userPermissionsCacheKey userId) = none ∧
     (checkPermission userId g.module g.action g.resource
        (revokePermissionsFromUser userId [g.id] st).2).1 = false) := by
  have hfilter1 : st.db.permissions.filter (fun p => [g.id].contains p.id) = [g] := by
    rw [List.filter_congr (fun p _ => ?_), hgfilter]
    by_cases h : p.id = g.id <;> simp [List.contains, h]
  have hassign : assignPermissionsToUser userId [g.id] grantedBy now st
      = (.ok { userId := userId, assignedCount := 1 },
         ⟨upsertUserPermission st.db userId g.id grantedBy now,
          deleteCache st.cache (userPermissionsCacheKey userId)⟩) := by
    unfold assignPermissionsToUser
    rw [hfind]
    simp only [hrole, if_false, hfilter1]
    simp
  constructor
  · have hupmem := upsert_granted_mem st.db userId g.id grantedBy now
    rcases hupmem with ⟨up, hupmem, hupuid, huppid, hupgr⟩
    have hflds := upsert_fields st.db userId g.id grantedBy now
    have htup : (⟨g.module, g.action, g.resource⟩ : PermTuple)
        ∈ permsOfUser (upsertUserPermission st.db userId g.id grantedBy now) userId := by
      unfold permsOfUser
      refine List.mem_filterMap.mpr ⟨up, ?_, ?_⟩
      · exact List.mem_filter.mpr ⟨hupmem, by simp [hupuid, hupgr]⟩
      · rw [hflds.2, huppid, hgfind]
        rfl
    have hfind2 : (upsertUserPermission st.db userId g.id grantedBy now).findUserById
        userId = some user := by
      unfold Db.findUserById
      rw [hflds.1]
      exact hfind
    refine ⟨by rw [hassign], by rw [hassign]; exact getCache_deleteCache _ _, ?_⟩
    rw [hassign]
    unfold checkPermission
    rw [show (St.mk (upsertUserPermission st.db userId g.id grantedBy now)
        (deleteCache st.cache (userPermissionsCacheKey userId))).db.findUserById userId
        = some user from hfind2]
    simp only [hrole, if_false]
    unfold getUserPermissions
    simp only [getCache_deleteCache]
    exact hasPermission_intro _ _ _ _ htup
  · have hrev : revokePermissionsFromUser userId [g.id] st
        = (.ok { userId := userId,
                 revokedCount := (st.db.userPermissions.filter
                   (fun up => revokeHit userId [g.id] up)).length },
           ⟨Db.mk st.db.users st.db.companies st.db.permissions
              (st.db.userPermissions.filter (fun up => !(revokeHit userId [g.id] up))),
            deleteCache st.cache (userPermissionsCacheKey userId)⟩) := by
      unfold revokePermissionsFromUser
      rw [hfind]
      rfl
    have hfind3 : (Db.mk st.db.users st.db.companies st.db.permissions
          (st.db.userPermissions.filter (fun up => !(revokeHit userId [g.id] up)))).findUserById
        userId = some user := hfind
    refine ⟨by rw [hrev]; rfl, by rw [hrev]; exact getCache_deleteCache _ _, ?_⟩
    rw [hrev]
    unfold checkPermission
    rw [show (St.mk (Db.mk st.db.users st.db.companies st.db.permissions
          (st.db.userPermissions.filter (fun up => !(revokeHit userId [g.id] up))))
        (deleteCache st.cache (userPermissionsCacheKey userId))).db.findUserById userId
        = some user from hfind3]
    simp only [hrole, if_false]
    unfold getUserPermissions
    simp only [getCache_deleteCache]
    by_contra htrue
    have htrue2 : hasPermission (permsOfUser
        (Db.mk st.db.users st.db.companies st.db.permissions
          (st.db.userPermissions.filter (fun up => !(revokeHit userId [g.id] up))))
        userId) g.module g.action g.resource = true := by
      revert htrue
      cases hasPermission (permsOfUser _ _) g.module g.action g.resource <;> simp
    rcases hasPermission_elim _ _ _ _ htrue2 with ⟨tup, htupmem, hm, ha, hr⟩
    rcases List.mem_filterMap.mp htupmem with ⟨up, hupmem2, hupeq⟩
    rcases Option.map_eq_some'.mp hupeq with ⟨p, hpfind, hptup⟩
    have hpmem : p ∈ st.db.permissions := List.mem_of_find?_eq_some hpfind
    have hppred := List.find?_some hpfind
    have hppid : p.id = up.permissionId := by simpa using hppred
    have hpm : p.module = g.module := by rw [← hptup] at hm; exact hm
    have hpa : p.action = g.action := by rw [← hptup] at ha; exact ha
    have hpr : p.resource = g.resource := by rw [← hptup] at hr; exact hr
    have hpid : p.id = g.id := htuple p hpmem hpm hpa hpr
    have hmem3 := List.mem_filter.mp hupmem2
    have huid3 : up.userId = userId := by
      have := hmem3.2
      simp at this
      exact this.1
    have hnothit := (List.mem_filter.mp hmem3.1).2
    have : up.permissionId = g.id := by rw [← hppid, hpid]
    simp [revokeHit, List.contains, huid3, this] at hnothit

theorem C2_witness :
    (checkPermission "u1" "inventory" "create" "products"
       (assignPermissionsToUser "u1" ["p1"] "adm" 7 stPermW).2).1 = true ∧
    (checkPermission "u1" "inventory" "create" "products"
       (revokePermissionsFromUser "u1" ["p1"] stPermW).2).1 = false :=
  ⟨(C2_cache_coherency stPermW "u1" "adm" 7 userW permW rfl (by decide) rfl rfl
      (by decide)).1.2.2,
   (C2_cache_coherency stPermW "u1" "adm" 7 userW permW rfl (by decide) rfl rfl
      (by decide)).2.2.2⟩

/-- C6: logout postcondition and idempotence.  After `logout` on an
existing identity, the call has succeeded, the stored refresh token is
null, the cached permission entry is gone, any subsequent refresh that
presents the pre-logout refresh token fails with a 401 Unauthorized-class
error without changing the state, and running `logout` again succeeds and
leaves the state exactly as it was. -/
theorem C6_logout_postconditions (st : St) (userId : String) (user : User)
    (hfind : st.db.findUserById userId = some user) :
    (logout userId st).1 = .ok () ∧
    ((logout userId st).2.db.findUserById userId).map (fun u => u.refreshToken)
      = some none ∧
    getCache (logout userId st).2.cache (userPermissionsCacheKey userId) = none ∧
    (∀ (env : JwtEnv) (cfg : JwtConfig) (now : Nat) (t0 : Token),
       user.refreshToken = some t0 → t0.payload.subjectId = userId →
       (refreshAccessToken env cfg now (some (.token t0)) (logout userId st).2).2
         = (logout userId st).2 ∧
       errStatus (refreshAccessToken env cfg now (some (.token t0)) (logout userId st).2).1
         = some 401) ∧
    logout userId (logout userId st).2 = (.ok (), (logout userId st).2) := by
  have hid : ∀ u : User,
      ({ u with refreshToken := none } : User).id = u.id := fun _ => rfl
  have hfind2 : st.db.users.find? (fun u => u.id == userId) = some user := hfind
  have huid : user.id = userId := by simpa using List.find?_some hfind2
  have hlo : logout userId st
      = (.ok (), ⟨st.db.updateUser userId (fun u => { u with refreshToken := none }),
                  deleteCache st.cache (userPermissionsCacheKey userId)⟩) := by
    unfold logout
    rw [hfind]
  have hfindAfter :
      (logout userId st).2.db.findUserById userId
        = some ({ user with refreshToken := none } : User) := by
    rw [hlo]
    rw [findUserById_updateUser _ _ _ _ hid, hfind]
    simp [huid]
  refine ⟨by rw [hlo], ?_, ?_, ?_, ?_⟩
  · rw [hfindAfter]
    rfl
  · rw [hlo]
    exact getCache_deleteCache _ _
  · intro env cfg now t0 ht0 hsub
    cases hv : verifyRefreshToken env cfg now (.token t0) with
    | error e =>
      have herr : e.statusCode = 401 := jwtVerify_error_statusCode hv
      unfold refreshAccessToken
      simp [hv, errStatus, herr]
    | ok decoded =>
      have hdec : decoded = t0.payload :=
        (jwtVerify_ok_elim hv).2.2.2.2
      unfold refreshAccessToken
      rw [hdec] at hv
      simp [hv, hsub, hfindAfter, storedMatches, errStatus, ApiError.unauthorized]
  · have hdb2 : (st.db.updateUser userId (fun u => { u with refreshToken := none })).updateUser
        userId (fun u => { u with refreshToken := none })
        = st.db.updateUser userId (fun u => { u with refreshToken := none }) := by
      unfold Db.updateUser
      simp only [List.map_map]
      refine congrArg (Db.mk · st.db.companies st.db.permissions st.db.userPermissions) ?_
      refine List.map_congr_left ?_
      intro u _
      by_cases hu : (u.id == userId) = true <;> simp [Function.comp, hu]
    have hf4 : (st.db.updateUser userId
          (fun u => { u with refreshToken := none })).findUserById userId
        = some ({ user with refreshToken := none } : User) := by
      rw [findUserById_updateUser _ _ _ _ hid, hfind]
      simp [huid]
    rw [hlo]
    unfold logout
    simp [hf4, hdb2, deleteCache_idem]

/-- C1: refresh-token rotation enforces a single active refresh token.
If a refresh call presented with token t1 succeeds and issues the pair
`tokens`, then afterwards the subject identity's stored refresh token
equals the new refresh token; any subsequent refresh presented with a
token for that identity different from the stored one — in particular t1
when it was rotated out — fails with a 401 Unauthorized-class error and
leaves the state unchanged; and a subsequent refresh presented with the
newly stored token succeeds while it is unexpired (the identity and
tenant are still active, untouched by rotation). -/
theorem C1_refresh_rotation (env : JwtEnv) (cfg : JwtConfig) (now : Nat)
    (t1 : Token) (st : St) (tokens : TokenPair) (st2 : St)
    (h : refreshAccessToken env cfg now (some (.token t1)) st = (.ok tokens, st2)) :
    ((st2.db.findUserById t1.payload.subjectId).map (fun u => u.refreshToken)
       = some (some tokens.refreshToken)) ∧
    (∀ (now2 : Nat) (t3 : Token), t3.payload.subjectId = t1.payload.subjectId →
       t3 ≠ tokens.refreshToken →
       (refreshAccessToken env cfg now2 (some (.token t3)) st2).2 = st2 ∧
       errStatus (refreshAccessToken env cfg now2 (some (.token t3)) st2).1 = some 401) ∧
    (∀ now3 : Nat, now3 < now + cfg.REFRESH_TOKEN_EXPIRY →
       (refreshAccessToken env cfg now3
          (some (.token tokens.refreshToken)) st2).1.isOk = true) := by
  simp only [refreshAccessToken] at h
  cases hv : verifyRefreshToken env cfg now (Presented.token t1) with
  | error e => rw [hv] at h; simp at h
  | ok decoded =>
    rw [hv] at h
    obtain ⟨hk, hexp, haud, hiss, hdec⟩ := jwtVerify_ok_elim hv
    subst hdec
    cases hu : st.db.findUserById t1.payload.subjectId with
    | none => simp [hu] at h
    | some user =>
      simp only [hu] at h
      by_cases hm : storedMatches user.refreshToken (.token t1) = false
      · rw [if_pos hm] at h; simp at h
      · rw [if_neg hm] at h
        by_cases hs : user.status ≠ .ACTIVE
        · rw [if_pos hs] at h; simp at h
        · rw [if_neg hs] at h
          cases hc : st.db.findCompanyById user.companyId with
          | none => simp [hc] at h
          | some company =>
            simp only [hc] at h
            by_cases hca : company.isActive = false
            · rw [if_pos hca] at h; simp at h
            · rw [if_neg hca] at h
              simp only [Prod.mk.injEq, Except.ok.injEq] at h
              obtain ⟨htok, hst2⟩ := h
              subst htok
              subst hst2
              have hstat : user.status = .ACTIVE := by simpa using hs
              have hcact : company.isActive = true := by
                cases hval : company.isActive with
                | false => exact absurd hval hca
                | true => rfl
              have hu2 : st.db.users.find? (fun u => u.id == t1.payload.subjectId)
                  = some user := hu
              have huid : user.id = t1.payload.subjectId := by
                simpa using List.find?_some hu2
              have hfind4 : (st.db.updateUser user.id
                    (fun u => { u with refreshToken := some (generateTokens env cfg user now).refreshToken })).findUserById
                  t1.payload.subjectId
                  = some ({ user with refreshToken := some (generateTokens env cfg user now).refreshToken } : User) := by
                rw [findUserById_updateUser st.db user.id t1.payload.subjectId
                  (fun u => { u with refreshToken := some (generateTokens env cfg user now).refreshToken })
                  (fun _ => rfl), hu]
                simp
              refine ⟨?_, ?_, ?_⟩
              · simp [hfind4]
              · intro now2 t3 hsub hne
                cases hv3 : verifyRefreshToken env cfg now2 (Presented.token t3) with
                | error e =>
                  refine ⟨by simp [refreshAccessToken, hv3], ?_⟩
                  have herr := jwtVerify_error_statusCode hv3
                  simp [refreshAccessToken, hv3, errStatus, herr]
                | ok dec3 =>
                  have hdec3 : dec3 = t3.payload := (jwtVerify_ok_elim hv3).2.2.2.2
                  have hne2 : ((generateTokens env cfg user now).refreshToken == t3)
                      = false := by
                    cases hbe : (generateTokens env cfg user now).refreshToken == t3 with
                    | false => rfl
                    | true => exact absurd (eq_of_beq hbe).symm hne
                  constructor <;>
                    simp [refreshAccessToken, hv3, hdec3, hsub, hfind4, storedMatches,
                      hne2, errStatus, ApiError.unauthorized]
              · intro now3 hlt
                have hv4 : verifyRefreshToken env cfg now3
                    (.token (generateTokens env cfg user now).refreshToken)
                    = .ok (.refresh ⟨user.id, user.email⟩) :=
                  jwtVerify_ok_intro env.refreshSecret cfg now3 _ rfl hlt rfl rfl
                have hfind5 := hfind4
                rw [← huid] at hfind5
                simp [refreshAccessToken, TokenPayload.subjectId, hv4, hfind5,
                  storedMatches, hstat, findCompanyById_updateUser, hc, hcact,
                  Except.isOk, Except.toBool]

theorem C1_witness :
    errStatus (refreshAccessToken envW cfgW 6 (some (.token t1W))
        (refreshAccessToken envW cfgW 5 (some (.token t1W)) stRefW).2).1 = some 401 :=
  ((C1_refresh_rotation envW cfgW 5 t1W stRefW (generateTokens envW cfgW userRefW 5)
      (refreshAccessToken envW cfgW 5 (some (.token t1W)) stRefW).2 rfl).2.1 6 t1W rfl
      (by decide)).2

theorem C6_witness :
    (logout "u1" stRefW).1 = .ok () ∧
    ((logout "u1" stRefW).2.db.findUserById "u1").map (fun u => u.refreshToken)
      = some none ∧
    errStatus (refreshAccessToken envW cfgW 6 (some (.token t1W))
        (logout "u1" stRefW).2).1 = some 401 ∧
    logout "u1" (logout "u1" stRefW).2 = (.ok (), (logout "u1" stRefW).2) :=
  ⟨(C6_logout_postconditions stRefW "u1" userRefW rfl).1,
   (C6_logout_postconditions stRefW "u1" userRefW rfl).2.1,
   ((C6_logout_postconditions stRefW "u1" userRefW rfl).2.2.2.1 envW cfgW 6 t1W
      rfl rfl).2,
   (C6_logout_postconditions stRefW "u1" userRefW rfl).2.2.2.2⟩

end ZirakBook
